import Mathlib

/-!
Verification of the Schedule Readiness Engine
(`src/backend/services/schedule_service.py` together with the SQLAlchemy
models in `src/backend/models.py`).

Modelling conventions:

* Timestamps are natural numbers (seconds since the epoch).  A Python
  `datetime.now()` inside one service call is modelled as a single `now`
  argument for the whole call; `timedelta(hours = h)` is `h * 3600`.
* Floating point measurements (wind speed, cloud cover, generation,
  scheduled energy) are modelled over `ℚ`.
* SQLAlchemy rows become plain structures.  Nullable columns and ORM
  attributes that are unset before a flush become `Option` fields.  Column
  defaults (`default=0`, `server_default=func.now()`) are applied only when
  a row is flushed (`commit`/`refresh`), exactly as the ORM does with
  `autoflush=False` (see `database.py`): a freshly constructed, unflushed
  instance reads `none` for such attributes.
* The database session is collapsed: inserts and updates that the source
  eventually commits are applied immediately to the state.  When a service
  call raises midway, the returned state keeps exactly the writes that the
  source had already committed before the raising statement (everything
  later is rolled back by the surrounding request handler).
* JSON payloads (`MeterData.blockData`, `Weather.forecast`) are modelled by
  small inductives distinguishing the cases the source distinguishes:
  unparsable text (caught, check skipped), a parsed-but-falsy value
  (skipped), a truthy non-dict value (`.get` raises `AttributeError`), and
  a proper object.  Object entries carry the numeric fields the source
  reads, with the Python `.get(key, 0)` defaults already applied; entries
  that are missing or falsy are simply absent.
* Query result lists (`meter_data`, `whatsapp_data`) are kept in the query
  order the source requests (`ORDER BY ... DESC`), so "latest" is the first
  matching element.
* Human-readable description/message strings are reproduced except for
  Python's `:.1f` number formatting and `strftime` rendering, which are
  replaced by `toString`; no theorem below inspects these strings.
-/

/-- Plant registry row (`models.Plant`), restricted to the fields the
schedule service reads: identity, display name and type (`"Wind"` or
`"Solar"`). -/
structure Plant where
  id : Nat
  name : String
  type' : String
deriving DecidableEq, Repr

/-- One block entry of a meter `blockData` JSON object: the `generation`
and `scheduled` numbers, with the source's `.get(_, 0)` defaults already
applied. -/
structure BlockEntry where
  generation : ℚ
  scheduled : ℚ
deriving DecidableEq, Repr

/-- Result of `json.loads` on a block-data payload, as the source
distinguishes the cases: `invalid` raises inside the `try` and is caught;
`falsy` is a parsed value with `not value` true (skipped); `nonDict` is a
truthy non-dict value, on which the later `.get` raises `AttributeError`;
`obj` is a JSON object keyed by block-key strings. -/
inductive BlockPayload where
  | invalid : BlockPayload
  | falsy : BlockPayload
  | nonDict : BlockPayload
  | obj : List (String × BlockEntry) → BlockPayload
deriving DecidableEq, Repr

/-- Result of `json.loads` on a weather `forecast` payload.  An `obj`
carries the optional `windSpeed` and `cloudCover` members the source
reads. -/
inductive ForecastPayload where
  | invalid : ForecastPayload
  | falsy : ForecastPayload
  | nonDict : ForecastPayload
  | obj : Option ℚ → Option ℚ → ForecastPayload
deriving DecidableEq, Repr

/-- Weather row (`models.Weather`) restricted to the fields the service
reads.  `windSpeed`/`cloudCover` are nullable columns. -/
structure WeatherRow where
  location : String
  windSpeed : Option ℚ
  cloudCover : Option ℚ
  forecast : ForecastPayload
deriving DecidableEq, Repr

/-- Meter-data row (`models.MeterData`) restricted to the fields the
service reads.  The ordering columns (`dataDate`, `createdAt`) are left
implicit: the state keeps meter rows in the query's sort order. -/
structure MeterRow where
  plantId : Nat
  blockData : BlockPayload
deriving DecidableEq, Repr

/-- Field report row (`models.WhatsAppData`) restricted to the fields the
service reads; rows are kept in `createdAt DESC` order. -/
structure WhatsAppRow where
  plantId : Nat
  curtailmentStatus : Bool
  curtailmentReason : Option String
deriving DecidableEq, Repr

/-- Readiness record (`models.ScheduleReadiness`).  `revision_number` and
`last_checked` have column defaults applied only at flush, hence the
`Option`; surrogate id and audit timestamps are omitted. -/
structure ScheduleReadiness where
  plant_id : Nat
  plant_name : String
  status : String
  last_checked : Option Nat
  upload_deadline : Option Nat
  schedule_date : Option Nat
  revision_number : Option Nat
  trigger_reason : Option String
deriving DecidableEq, Repr

/-- Trigger log entry (`models.ScheduleTrigger`); surrogate id and
`created_at` are omitted (no service logic reads them). -/
structure ScheduleTrigger where
  plant_id : Nat
  trigger_type : String
  severity : String
  description : String
  threshold_value : Option ℚ
  actual_value : Option ℚ
  acknowledged : Bool
  processed : Bool
deriving DecidableEq, Repr

/-- Notification log entry (`models.ScheduleNotification`); `created_at`
is the flush time (`server_default=func.now()`), which the dedup query
compares against. -/
structure ScheduleNotification where
  plant_id : Nat
  plant_name : String
  notification_type : String
  title : String
  message : String
  priority : String
  read : Bool
  action_required : Bool
  deadline : Option Nat
  created_at : Nat
deriving DecidableEq, Repr

/-- Whole database state visible to the schedule service.  `plants`,
`weather`, `meterData` and `whatsapp` are the read-only signal sources;
`readiness`, `triggers` and `notifications` are owned and mutated by the
engine. -/
structure EngineState where
  plants : List Plant
  weather : List WeatherRow
  meterData : List MeterRow
  whatsapp : List WhatsAppRow
  readiness : List ScheduleReadiness
  triggers : List ScheduleTrigger
  notifications : List ScheduleNotification
deriving DecidableEq, Repr

/-- Configuration constant `DEVIATION_THRESHOLD = 10.0`. -/
def DEVIATION_THRESHOLD : ℚ := 10

/-- Configuration constant `WEATHER_CHANGE_THRESHOLD = 15.0`. -/
def WEATHER_CHANGE_THRESHOLD : ℚ := 15

/-- Configuration constant `UPLOAD_DEADLINE_HOURS = 4`, in seconds. -/
def UPLOAD_DEADLINE_SECONDS : Nat := 4 * 3600

/-- Query `Plant` by primary key (`db.query(Plant).filter(Plant.id == plant_id).first()`). -/
def plantFor (st : EngineState) (pid : Nat) : Option Plant :=
  st.plants.find? (fun p => p.id == pid)

/-- Query the readiness row of a plant
(`db.query(ScheduleReadiness).filter(plant_id == pid).first()`). -/
def readinessFor (st : EngineState) (pid : Nat) : Option ScheduleReadiness :=
  st.readiness.find? (fun r => r.plant_id == pid)

/-- Query the weather row whose `location` is `"Plant_{plant_id}"`. -/
def weatherFor (st : EngineState) (pid : Nat) : Option WeatherRow :=
  st.weather.find? (fun w => w.location == "Plant_" ++ toString pid)

/-- Latest meter row for a plant (`ORDER BY dataDate DESC, createdAt DESC`
collapsed into list order). -/
def latestMeter (st : EngineState) (pid : Nat) : Option MeterRow :=
  st.meterData.find? (fun m => m.plantId == pid)

/-- Latest field report for a plant (`ORDER BY createdAt DESC` collapsed
into list order). -/
def latestWhatsApp (st : EngineState) (pid : Nat) : Option WhatsAppRow :=
  st.whatsapp.find? (fun w => w.plantId == pid)

/-- Current block key as the source computes it:
`current_minute = (minute // 15) * 15`;
`key = "block_" ++ str(hour * 4 + current_minute // 15 + 1)`. -/
def blockKey (now : Nat) : String :=
  let hour := now / 3600 % 24
  let currentMinute := now % 3600 / 60 / 15 * 15
  "block_" ++ toString (hour * 4 + currentMinute / 15 + 1)

/-- Deviation check (`_check_deviation`): reads the latest meter row, the
current block's generation/scheduled pair, and emits a `Deviation` trigger
when the scheduled value is non-zero and the absolute percent deviation
reaches `DEVIATION_THRESHOLD`.  An `AttributeError` (non-dict payload)
escapes the function. -/
def checkDeviation (st : EngineState) (pid : Nat) (now : Nat) :
    Except String (Option ScheduleTrigger) :=
  match latestMeter st pid with
  | none => .ok none
  | some md =>
    match md.blockData with
    | .invalid => .ok none
    | .falsy => .ok none
    | .nonDict => .error "AttributeError"
    | .obj entries =>
      if entries.isEmpty then .ok none
      else
        match entries.lookup (blockKey now) with
        | none => .ok none
        | some b =>
          if b.scheduled = 0 then .ok none
          else
            let deviationPercent := (b.generation - b.scheduled) / b.scheduled * 100
            if |deviationPercent| ≥ DEVIATION_THRESHOLD then
              .ok (some
                { plant_id := pid
                  trigger_type := "Deviation"
                  severity := if |deviationPercent| ≥ 20 then "HIGH" else "MEDIUM"
                  description := "Meter deviation of " ++ toString deviationPercent ++ "% detected"
                  threshold_value := some DEVIATION_THRESHOLD
                  actual_value := some deviationPercent
                  acknowledged := false
                  processed := false })
            else .ok none

/-- Weather check (`_check_weather_change`): compares the current wind
speed (Wind plants) or cloud cover (Solar and any other type) against the
forecast payload.  The `.get` on a truthy non-dict payload raises, but
only after the plant lookup succeeds, matching the source's statement
order. -/
def checkWeatherChange (st : EngineState) (pid : Nat) :
    Except String (Option ScheduleTrigger) :=
  match weatherFor st pid with
  | none => .ok none
  | some w =>
    match w.forecast with
    | .invalid => .ok none
    | .falsy => .ok none
    | .nonDict =>
      match plantFor st pid with
      | none => .ok none
      | some _ => .error "AttributeError"
    | .obj windSpeedMember cloudCoverMember =>
      match plantFor st pid with
      | none => .ok none
      | some plant =>
        if plant.type' = "Wind" then
          let currentWind := w.windSpeed.getD 0
          let forecastWind := windSpeedMember.getD currentWind
          if forecastWind > 0 then
            let windChange : ℚ :=
              if currentWind > 0 then (forecastWind - currentWind) / currentWind * 100 else 0
            if |windChange| ≥ WEATHER_CHANGE_THRESHOLD then
              .ok (some
                { plant_id := pid
                  trigger_type := "Weather"
                  severity := if |windChange| ≥ 25 then "HIGH" else "MEDIUM"
                  description := "Wind forecast change of " ++ toString windChange ++ "% detected"
                  threshold_value := some WEATHER_CHANGE_THRESHOLD
                  actual_value := some windChange
                  acknowledged := false
                  processed := false })
            else .ok none
          else .ok none
        else
          let currentCloud := w.cloudCover.getD 0
          let forecastCloud := cloudCoverMember.getD currentCloud
          if currentCloud > 0 then
            let cloudChange : ℚ := (forecastCloud - currentCloud) / currentCloud * 100
            if |cloudChange| ≥ WEATHER_CHANGE_THRESHOLD then
              .ok (some
                { plant_id := pid
                  trigger_type := "Weather"
                  severity := if |cloudChange| ≥ 25 then "HIGH" else "MEDIUM"
                  description := "Cloud cover forecast change of " ++ toString cloudChange ++ "% detected"
                  threshold_value := some WEATHER_CHANGE_THRESHOLD
                  actual_value := some cloudChange
                  acknowledged := false
                  processed := false })
            else .ok none
          else .ok none

/-- Curtailment check (`_check_curtailment`): the latest field report with
an active curtailment flag yields a `CRITICAL` trigger. -/
def checkCurtailment (st : EngineState) (pid : Nat) : Option ScheduleTrigger :=
  match latestWhatsApp st pid with
  | none => none
  | some wd =>
    if wd.curtailmentStatus then
      some
        { plant_id := pid
          trigger_type := "Curtailment"
          severity := "CRITICAL"
          description := "Curtailment active: " ++ wd.curtailmentReason.getD "No reason specified"
          threshold_value := none
          actual_value := some 1
          acknowledged := false
          processed := false }
    else none

/-- Stubbed schedule-file probe (`_check_schedule_files`): the source
always returns `False`.  The spec (§6, §9) requires this to stay an
injectable per-plant boolean hook, so the service below is parametrised
over a `hook : Nat → Bool`; `checkScheduleFilesStub` is the concrete
source behaviour. -/
def checkScheduleFilesStub : Nat → Bool := fun _ => false

/-- Status decision table (`_determine_status`). -/
def determineStatus (hasUpdatedFiles : Bool) (hasActiveTriggers : Bool) : String :=
  if hasUpdatedFiles then "READY"
  else if hasActiveTriggers then "PENDING"
  else "NO_ACTION"

/-- Replace a plant's readiness row in place (ORM mutation of the loaded
row followed by commit). -/
def setReadiness (st : EngineState) (pid : Nat) (r : ScheduleReadiness) : EngineState :=
  { st with readiness := st.readiness.map (fun x => if x.plant_id == pid then r else x) }

/-- Append an evaluated trigger to the trigger log (the checks `db.add` +
`commit` each trigger as soon as it is produced). -/
def addTriggerOpt (st : EngineState) (t : Option ScheduleTrigger) : EngineState :=
  match t with
  | none => st
  | some tr => { st with triggers := st.triggers ++ [tr] }

/-- Notification title per trigger type (`title_map` with its `.get`
fallback). -/
def notificationTitle (triggerType : String) : String :=
  if triggerType = "Weather" then "Weather Change Detected"
  else if triggerType = "Curtailment" then "Curtailment Signal Active"
  else if triggerType = "Deviation" then "Meter Deviation Detected"
  else "Trigger Detected"

/-- Notification message per trigger type (`message_map` with its `.get`
fallback; Python's `:.1f` formatting is collapsed to `toString`). -/
def notificationMessage (plantName : String) (trigger : ScheduleTrigger) : String :=
  if trigger.trigger_type = "Weather" then
    "Weather forecast change detected for " ++ plantName ++ ". Schedule revision may be required."
  else if trigger.trigger_type = "Curtailment" then
    "Curtailment signal active for " ++ plantName ++ ". " ++ trigger.description
  else if trigger.trigger_type = "Deviation" then
    "Meter deviation of " ++ toString (trigger.actual_value.getD 0) ++ "% detected for " ++ plantName ++ "."
  else trigger.description

/-- Trigger-alert dispatcher (`_create_notification`): if a
`"Trigger Alert"` notification for this plant was created within the
trailing hour (`created_at > now - timedelta(hours=1)`), return it and
create nothing; otherwise append a new notification whose priority is
`HIGH` for `HIGH`/`CRITICAL` trigger severity and `NORMAL` otherwise. -/
def createNotification (st : EngineState) (pid : Nat) (plantName : String)
    (trigger : ScheduleTrigger) (now : Nat) : EngineState × ScheduleNotification :=
  match st.notifications.find? (fun n =>
      n.plant_id == pid && n.notification_type == "Trigger Alert" &&
        decide ((n.created_at : Int) > (now : Int) - 3600)) with
  | some existing => (st, existing)
  | none =>
    let n : ScheduleNotification :=
      { plant_id := pid
        plant_name := plantName
        notification_type := "Trigger Alert"
        title := notificationTitle trigger.trigger_type
        message := notificationMessage plantName trigger
        priority := if trigger.severity = "HIGH" ∨ trigger.severity = "CRITICAL" then "HIGH" else "NORMAL"
        read := false
        action_required := true
        deadline := none
        created_at := now }
    ({ st with notifications := st.notifications ++ [n] }, n)

/-- Notification record built by `_create_ready_notification`: always
priority `URGENT`, always carrying the upload deadline. -/
def readyNotification (pid : Nat) (plantName : String) (deadline : Nat) (now : Nat) :
    ScheduleNotification :=
  { plant_id := pid
    plant_name := plantName
    notification_type := "Schedule Ready"
    title := "Schedule Ready for Upload"
    message := "Updated schedule for " ++ plantName ++ " is ready for upload. Deadline: " ++ toString deadline
    priority := "URGENT"
    read := false
    action_required := true
    deadline := some deadline
    created_at := now }

/-- Ready-notification dispatcher (`_create_ready_notification`): always
appends the `URGENT` `"Schedule Ready"` notification (no deduplication). -/
def createReadyNotification (st : EngineState) (pid : Nat) (plantName : String)
    (deadline : Nat) (now : Nat) : EngineState :=
  { st with notifications := st.notifications ++ [readyNotification pid plantName deadline now] }

/-- Lazy creation step of `check_plant_readiness`: return the existing
readiness row, or insert a fresh `NO_ACTION` row and `commit`/`refresh`
it, which materialises the column defaults (`revision_number = 0`,
`last_checked = now`).  `schedule_date` records `date.today()` as the day
number `now / 86400`. -/
def getOrCreateReadiness (st : EngineState) (plant : Plant) (now : Nat) :
    EngineState × ScheduleReadiness :=
  match readinessFor st plant.id with
  | some r => (st, r)
  | none =>
    let r : ScheduleReadiness :=
      { plant_id := plant.id
        plant_name := plant.name
        status := "NO_ACTION"
        last_checked := some now
        upload_deadline := none
        schedule_date := some (now / 86400)
        revision_number := some 0
        trigger_reason := none }
    ({ st with readiness := st.readiness ++ [r] }, r)

/-- Trigger-evaluation phase of `check_plant_readiness`: run the weather,
curtailment and deviation checks in source order, persisting each emitted
trigger immediately.  An uncaught `AttributeError` in a check aborts the
phase; triggers committed by earlier checks remain in the state. -/
def evalTriggers (st : EngineState) (pid : Nat) (now : Nat) :
    EngineState × Except String (List ScheduleTrigger) :=
  match checkWeatherChange st pid with
  | .error e => (st, .error e)
  | .ok weatherTrigger =>
    let st1 := addTriggerOpt st weatherTrigger
    let curtailmentTrigger := checkCurtailment st1 pid
    let st2 := addTriggerOpt st1 curtailmentTrigger
    match checkDeviation st2 pid now with
    | .error e => (st2, .error e)
    | .ok deviationTrigger =>
      (addTriggerOpt st2 deviationTrigger,
       .ok ([weatherTrigger, curtailmentTrigger, deviationTrigger].filterMap id))

/-- Comma-joined distinct trigger type names
(`", ".join(list(set(trigger_types)))`; the Python set's iteration order
is collapsed to first-occurrence order — the spec treats the set as
order-insensitive). -/
def joinTriggerTypes (ts : List ScheduleTrigger) : String :=
  String.intercalate ", " (ts.map (fun t => t.trigger_type)).eraseDups

/-- Status-update phase of `check_plant_readiness` (lines 95-129): decide
the new status, create trigger-alert notifications when resolving to
PENDING, stamp `last_checked`, and on a non-READY → READY transition set
the upload deadline, increment `revision_number` and emit the ready
notification.  Reading an unflushed `revision_number` (`None + 1`) raises
`TypeError`; the uncommitted row mutations are then rolled back while the
already-committed notifications stay. -/
def applyStatusUpdate (hook : Nat → Bool) (st : EngineState) (plant : Plant)
    (r : ScheduleReadiness) (active : List ScheduleTrigger) (now : Nat) :
    EngineState × Except String ScheduleReadiness :=
  let hasActiveTriggers := !active.isEmpty
  let hasUpdatedFiles := hook plant.id
  let newStatus := determineStatus hasUpdatedFiles hasActiveTriggers
  let triggerReason :=
    if newStatus = "PENDING" ∧ hasActiveTriggers then some (joinTriggerTypes active) else none
  let st1 :=
    if newStatus = "PENDING" ∧ hasActiveTriggers then
      active.foldl (fun s t => (createNotification s plant.id plant.name t now).1) st
    else st
  let r1 := { r with status := newStatus, last_checked := some now, trigger_reason := triggerReason }
  if newStatus = "READY" ∧ r.status ≠ "READY" then
    match r1.revision_number with
    | none => (st1, .error "TypeError")
    | some k =>
      let r2 := { r1 with upload_deadline := some (now + UPLOAD_DEADLINE_SECONDS),
                          revision_number := some (k + 1) }
      let st2 := setReadiness st1 plant.id r2
      let st3 := createReadyNotification st2 plant.id plant.name (now + UPLOAD_DEADLINE_SECONDS) now
      (st3, .ok r2)
  else
    let r2 := if newStatus = "NO_ACTION" then { r1 with trigger_reason := none } else r1
    (setReadiness st1 plant.id r2, .ok r2)

/-- Per-plant readiness check (`check_plant_readiness`): plant lookup,
lazy readiness-row creation, trigger evaluation and status update.  A
missing plant returns `none`; an uncaught evaluator exception is
propagated, keeping the already-committed writes. -/
def checkPlantReadiness (hook : Nat → Bool) (st : EngineState) (pid : Nat) (now : Nat) :
    EngineState × Except String (Option ScheduleReadiness) :=
  match plantFor st pid with
  | none => (st, .ok none)
  | some plant =>
    let step := getOrCreateReadiness st plant now
    match evalTriggers step.1 pid now with
    | (st2, .error e) => (st2, .error e)
    | (st2, .ok active) =>
      match applyStatusUpdate hook st2 plant step.2 active now with
      | (st3, .error e) => (st3, .error e)
      | (st3, .ok r2) => (st3, .ok (some r2))

/-- Aggregate census of the sweep (`status_counts`). -/
structure StatusCounts where
  ready : Nat
  pending : Nat
  noAction : Nat
deriving DecidableEq, Repr

/-- Census increment (`status_counts[readiness.status] += 1`): any status
outside the three initialised keys raises `KeyError`. -/
def bumpCount (c : StatusCounts) (status : String) : Except String StatusCounts :=
  if status = "READY" then .ok { c with ready := c.ready + 1 }
  else if status = "PENDING" then .ok { c with pending := c.pending + 1 }
  else if status = "NO_ACTION" then .ok { c with noAction := c.noAction + 1 }
  else .error "KeyError"

/-- Loop body of `check_all_plants`: check each plant in turn, re-read its
readiness row and bump the census.  There is no exception handling: a
failure in one plant's check ends the sweep immediately. -/
def checkAllGo (hook : Nat → Bool) (now : Nat) :
    EngineState → StatusCounts → List Plant → EngineState × Except String StatusCounts
  | st, c, [] => (st, .ok c)
  | st, c, p :: ps =>
    match checkPlantReadiness hook st p.id now with
    | (st1, .error e) => (st1, .error e)
    | (st1, .ok _) =>
      match readinessFor st1 p.id with
      | none => checkAllGo hook now st1 c ps
      | some r =>
        match bumpCount c r.status with
        | .error e => (st1, .error e)
        | .ok c1 => checkAllGo hook now st1 c1 ps

/-- Orchestrator (`check_all_plants`): sweep every plant once and return
the status census. -/
def checkAllPlants (hook : Nat → Bool) (st : EngineState) (now : Nat) :
    EngineState × Except String StatusCounts :=
  checkAllGo hook now st { ready := 0, pending := 0, noAction := 0 } st.plants

/-- Manual trigger row recorded by `trigger_manual_revision`: type
`Manual`, severity `MEDIUM` (`db.add`, flushed by the subsequent check's
commits). -/
def manualTrigger (pid : Nat) (reason : String) : ScheduleTrigger :=
  { plant_id := pid
    trigger_type := "Manual"
    severity := "MEDIUM"
    description := "Manual revision triggered: " ++ reason
    threshold_value := none
    actual_value := none
    acknowledged := false
    processed := false }

/-- Manual revision, continued: the trigger row built above is added and
the full readiness check re-run. -/
def triggerManualRevision (hook : Nat → Bool) (st : EngineState) (pid : Nat)
    (reason : String) (now : Nat) : EngineState × Except String (Option ScheduleReadiness) :=
  let st1 := { st with triggers := st.triggers ++ [manualTrigger pid reason] }
  checkPlantReadiness hook st1 pid now

/-- Operator dismissal (`continue_existing_schedule`): mark every
unprocessed trigger of the plant acknowledged+processed, then force the
readiness row (when one exists) to `NO_ACTION` with `trigger_reason`
cleared.  A missing plant returns `none` untouched; a missing readiness
row returns `none` after the trigger update. -/
def continueExistingSchedule (st : EngineState) (pid : Nat) (now : Nat) :
    EngineState × Option ScheduleReadiness :=
  match plantFor st pid with
  | none => (st, none)
  | some _ =>
    let st1 := { st with triggers := st.triggers.map (fun t =>
        if t.plant_id == pid && !t.processed then
          { t with acknowledged := true, processed := true }
        else t) }
    match readinessFor st1 pid with
    | none => (st1, none)
    | some r =>
      let r1 := { r with status := "NO_ACTION", trigger_reason := none, last_checked := some now }
      (setReadiness st1 pid r1, some r1)

/-- Manual ready marking (`mark_schedule_ready`): force the readiness row
to `READY` with the supplied or default deadline, increment
`revision_number` and emit the ready notification.  When no row exists the
source constructs a fresh, unflushed instance whose `revision_number`
attribute still reads `None` (column defaults are applied only at flush,
and the session has `autoflush=False`), so `revision_number + 1` raises
`TypeError` before anything is committed; the pending insert is rolled
back. -/
def markScheduleReady (st : EngineState) (pid : Nat) (uploadDeadline : Option Nat)
    (now : Nat) : EngineState × Except String (Option ScheduleReadiness) :=
  match plantFor st pid with
  | none => (st, .ok none)
  | some plant =>
    let r0 : ScheduleReadiness :=
      match readinessFor st pid with
      | some r => r
      | none =>
        { plant_id := pid
          plant_name := plant.name
          status := "READY"
          last_checked := none
          upload_deadline := none
          schedule_date := none
          revision_number := none
          trigger_reason := none }
    match r0.revision_number with
    | none => (st, .error "TypeError")
    | some k =>
      let d := uploadDeadline.getD (now + UPLOAD_DEADLINE_SECONDS)
      let r1 := { r0 with status := "READY", upload_deadline := some d,
                          revision_number := some (k + 1), last_checked := some now }
      let st1 := setReadiness st pid r1
      let st2 := createReadyNotification st1 pid plant.name d now
      (st2, .ok (some r1))

/-- Plant readiness lookup (`get_plant_readiness`). -/
def getPlantReadiness (st : EngineState) (pid : Nat) : Option ScheduleReadiness :=
  readinessFor st pid

/-- One operator/scheduler action on the engine, tagged with the wall
clock time at which it runs. -/
inductive Op where
  | checkAll : Nat → Op
  | checkPlant : Nat → Nat → Op
  | manual : Nat → String → Nat → Op
  | contSchedule : Nat → Nat → Op
  | markReady : Nat → Option Nat → Nat → Op
deriving DecidableEq, Repr

/-- Wall clock time of an operation. -/
def Op.time : Op → Nat
  | .checkAll now => now
  | .checkPlant _ now => now
  | .manual _ _ now => now
  | .contSchedule _ now => now
  | .markReady _ _ now => now

/-- Apply one operation to the state, keeping whatever the operation
committed (also on the raising paths). -/
def runOp (hook : Nat → Bool) (st : EngineState) : Op → EngineState
  | .checkAll now => (checkAllPlants hook st now).1
  | .checkPlant pid now => (checkPlantReadiness hook st pid now).1
  | .manual pid reason now => (triggerManualRevision hook st pid reason now).1
  | .contSchedule pid now => (continueExistingSchedule st pid now).1
  | .markReady pid d now => (markScheduleReady st pid d now).1

/-- Run a sequence of operations left to right. -/
def runTrace (hook : Nat → Bool) (st : EngineState) (ops : List Op) : EngineState :=
  ops.foldl (runOp hook) st

/-- Separation property between two notifications in creation order: when
both are Trigger-Alert notifications of the same plant, the later was
created at least one hour (3600 seconds) after the earlier. -/
def taSep (a b : ScheduleNotification) : Prop :=
  a.plant_id = b.plant_id → a.notification_type = "Trigger Alert" →
    b.notification_type = "Trigger Alert" → a.created_at + 3600 ≤ b.created_at

/-- Invariant carried through a run: the notification log (in creation
order) is pairwise separated, and no Trigger-Alert notification postdates
the clock. -/
def NotifInv (l : List ScheduleNotification) (t : Nat) : Prop :=
  l.Pairwise taSep ∧ ∀ n ∈ l, n.notification_type = "Trigger Alert" → n.created_at ≤ t

/-- Schedule-file hook reporting a fresh schedule for every plant — the
opposite pole of `checkScheduleFilesStub` for exercising the READY path
the spec's injectable hook (§6, §9) allows. -/
def hookAlwaysTrue : Nat → Bool := fun _ => true

/-- Fixture: a Solar plant with id 1. -/
def plantSolar1 : Plant := { id := 1, name := "Plant One", type' := "Solar" }

/-- Fixture: a Wind plant with id 2. -/
def plantWind2 : Plant := { id := 2, name := "Plant Two", type' := "Wind" }

/-- Fixture: one Solar plant, no signal data, no engine-owned rows. -/
def quietState : EngineState :=
  { plants := [plantSolar1], weather := [], meterData := [], whatsapp := [],
    readiness := [], triggers := [], notifications := [] }

/-- Fixture: two plants where plant 1's latest meter row carries a truthy
non-dict JSON payload, so its deviation check raises `AttributeError`. -/
def abortSweepState : EngineState :=
  { plants := [plantSolar1, plantWind2], weather := [],
    meterData := [{ plantId := 1, blockData := .nonDict }],
    whatsapp := [], readiness := [], triggers := [], notifications := [] }

/-- Fixture: a Wind plant whose weather row has current wind speed 10 and
a forecast payload with `windSpeed = 0`. -/
def windZeroForecastState : EngineState :=
  { plants := [plantWind2],
    weather := [{ location := "Plant_2", windSpeed := some 10, cloudCover := none,
                  forecast := .obj (some 0) none }],
    meterData := [], whatsapp := [], readiness := [], triggers := [], notifications := [] }

/-- Fixture: an unprocessed Deviation trigger for plant 1. -/
def unprocessedTrigger1 : ScheduleTrigger :=
  { plant_id := 1, trigger_type := "Deviation", severity := "MEDIUM",
    description := "Meter deviation of 12% detected", threshold_value := some 10,
    actual_value := some 12, acknowledged := false, processed := false }

/-- Fixture: plant 1 with an unprocessed trigger but no readiness row. -/
def noRecordTriggerState : EngineState :=
  { quietState with triggers := [unprocessedTrigger1] }

/-- Fixture: evaluate plant 1 once, force it READY manually, then
re-evaluate it — the shortest operation sequence producing a READY record
that is then re-evaluated to NO_ACTION. -/
def deadlineTrace : List Op :=
  [.checkPlant 1 0, .markReady 1 none 0, .checkPlant 1 0]

/-- Readiness record produced by the first evaluation of `quietState`'s
plant at time 0. -/
def quietNoActionRecord : ScheduleReadiness :=
  { plant_id := 1, plant_name := "Plant One", status := "NO_ACTION", last_checked := some 0,
    upload_deadline := none, schedule_date := some 0, revision_number := some 0,
    trigger_reason := none }

/-- Fixture: `quietState` after its plant's record has been created. -/
def quietCheckedState : EngineState :=
  { quietState with readiness := [quietNoActionRecord] }

/-- Fixture: an already-READY record for plant 1 carrying a deadline. -/
def readyRecord1 : ScheduleReadiness :=
  { plant_id := 1, plant_name := "Plant One", status := "READY", last_checked := some 0,
    upload_deadline := some 99, schedule_date := some 0, revision_number := some 1,
    trigger_reason := none }

/-- Fixture: `quietState` with the READY record installed. -/
def readyRecordState : EngineState :=
  { quietState with readiness := [readyRecord1] }

/-- Record obtained by re-evaluating `readyRecordState`'s plant at time 7
with no triggers and no updated file. -/
def reevaluatedRecord1 : ScheduleReadiness :=
  { plant_id := 1, plant_name := "Plant One", status := "NO_ACTION", last_checked := some 7,
    upload_deadline := some 99, schedule_date := some 0, revision_number := some 1,
    trigger_reason := none }

/-- Record obtained by checking `quietCheckedState`'s plant at time 5 with
an updated schedule file present. -/
def readyTransitionRecord : ScheduleReadiness :=
  { plant_id := 1, plant_name := "Plant One", status := "READY", last_checked := some 5,
    upload_deadline := some 14405, schedule_date := some 0, revision_number := some 1,
    trigger_reason := none }

/-- Fixture: Wind plant whose weather row has current wind speed 10 and
forecast wind speed 20 (a +100% change). -/
def windDoubledState : EngineState :=
  { plants := [plantWind2],
    weather := [{ location := "Plant_2", windSpeed := some 10, cloudCover := none,
                  forecast := .obj (some 20) none }],
    meterData := [], whatsapp := [], readiness := [], triggers := [], notifications := [] }

/-- Fixture: plant 1 whose current-block meter entry reads generation 120
against scheduled 100 (the spec's 20% deviation scenario). -/
def deviationScenarioState : EngineState :=
  { plants := [plantSolar1], weather := [],
    meterData := [{ plantId := 1,
                    blockData := .obj [(blockKey 0, { generation := 120, scheduled := 100 })] }],
    whatsapp := [], readiness := [], triggers := [], notifications := [] }

/-- Fixture: a PENDING record for plant 1. -/
def pendingRecord1 : ScheduleReadiness :=
  { plant_id := 1, plant_name := "Plant One", status := "PENDING", last_checked := some 0,
    upload_deadline := none, schedule_date := some 0, revision_number := some 0,
    trigger_reason := some "Deviation" }

/-- Fixture: plant 1 with the PENDING record and one unprocessed trigger. -/
def continueFixtureState : EngineState :=
  { quietState with readiness := [pendingRecord1], triggers := [unprocessedTrigger1] }

/-- Fixture: plant 1 with an active curtailment field report, so every
check raises a Curtailment trigger and wants to notify. -/
def curtailedState : EngineState :=
  { quietState with whatsapp := [{ plantId := 1, curtailmentStatus := true,
                                   curtailmentReason := some "Grid Constraint" }] }

/-- Fixture: two checks of the curtailed plant ten seconds apart. -/
def rateLimitOps : List Op := [.checkPlant 1 0, .checkPlant 1 10]

/-- C1 counterexample: on a plant with no weather, meter or field-report
data (so none of the three automatic checks fires) and no updated schedule
file, `triggerManualRevision` records the Manual/MEDIUM trigger but the
re-run check resolves the plant to `NO_ACTION`, not the `PENDING` the
claim asserts: the manual trigger does not participate in the status
aggregation. -/
theorem trigger_manual_revision_no_pending_cex :
    (triggerManualRevision checkScheduleFilesStub quietState 1 "operator request" 0).2 =
      .ok (some { plant_id := 1, plant_name := "Plant One", status := "NO_ACTION",
                  last_checked := some 0, upload_deadline := none, schedule_date := some 0,
                  revision_number := some 0, trigger_reason := none }) ∧
    manualTrigger 1 "operator request" ∈
      (triggerManualRevision checkScheduleFilesStub quietState 1 "operator request" 0).1.triggers ∧
    ("NO_ACTION" : String) ≠ "PENDING" := by
  refine ⟨rfl, by decide, by decide⟩

/-- C2 counterexample: with plant 1's deviation evaluator raising
(non-dict meter payload), `checkAllPlants` propagates the failure instead
of isolating it — the sweep returns the error, and plant 2 is never
checked (no readiness row is ever created for it), contradicting the
claimed continue-and-fold-into-NO_ACTION behaviour. -/
theorem check_all_plants_abort_cex :
    (checkAllPlants checkScheduleFilesStub abortSweepState 0).2 = .error "AttributeError" ∧
    getPlantReadiness (checkAllPlants checkScheduleFilesStub abortSweepState 0).1 2 = none := by
  exact ⟨rfl, rfl⟩

/-- C3 counterexample: Wind plant, current wind speed 10 (non-zero),
forecast wind speed 0 — the claimed percent change magnitude is 100 ≥ 15,
so the claim demands a Weather trigger, but the source's additional
`forecast_wind > 0` guard suppresses it. -/
theorem weather_wind_zero_forecast_cex :
    checkWeatherChange windZeroForecastState 2 = .ok none ∧
    (10 : ℚ) ≠ 0 ∧ |((0 : ℚ) - 10) / 10 * 100| ≥ WEATHER_CHANGE_THRESHOLD := by
  refine ⟨rfl, by norm_num, by rw [WEATHER_CHANGE_THRESHOLD]; norm_num⟩

/-- C4: `markScheduleReady` on an existing plant with no readiness row is
claimed (and clearly intended) to create a READY record with
`revision_number = 1` and emit an URGENT notification; instead the code
reads the unflushed `revision_number` attribute (`None`, since the column
default is applied only at flush and the session has `autoflush=False`)
and `None + 1` raises `TypeError`, creating and committing nothing. -/
theorem mark_ready_missing_record_raises :
    markScheduleReady quietState 1 none 0 = (quietState, .error "TypeError") := rfl

/-- C5 counterexample: for an existing plant with no readiness record,
`continueExistingSchedule` returns nothing and creates no record — the
plant's status is not `NO_ACTION` (there is no status at all), refuting
the claim's "holds in particular when no Readiness Record exists yet". -/
theorem continue_without_record_cex :
    (continueExistingSchedule noRecordTriggerState 1 0).2 = none ∧
    getPlantReadiness (continueExistingSchedule noRecordTriggerState 1 0).1 1 = none := by
  exact ⟨rfl, rfl⟩

/-- C6 counterexample: run the engine's own operations — evaluate plant 1
(record created NO_ACTION), `markScheduleReady` (enters READY, deadline
set), then re-evaluate with no triggers and no updated file.  The record
resolves back to `NO_ACTION` but `upload_deadline` is still present: the
code never clears it, refuting the claimed "no longer present after a
READY record is re-evaluated". -/
theorem upload_deadline_not_cleared_cex :
    getPlantReadiness (runTrace checkScheduleFilesStub quietState deadlineTrace) 1 =
      some { plant_id := 1, plant_name := "Plant One", status := "NO_ACTION",
             last_checked := some 0, upload_deadline := some UPLOAD_DEADLINE_SECONDS,
             schedule_date := some 0, revision_number := some 1, trigger_reason := none } ∧
    (some UPLOAD_DEADLINE_SECONDS : Option Nat) ≠ none := by
  refine ⟨rfl, by decide⟩

/-- The signal checks never read the engine-owned trigger log. -/
theorem checkWeatherChange_update_triggers (st : EngineState) (tr : List ScheduleTrigger)
    (pid : Nat) :
    checkWeatherChange { st with triggers := tr } pid = checkWeatherChange st pid := rfl

/-- The curtailment check never reads the engine-owned trigger log. -/
theorem checkCurtailment_update_triggers (st : EngineState) (tr : List ScheduleTrigger)
    (pid : Nat) :
    checkCurtailment { st with triggers := tr } pid = checkCurtailment st pid := rfl

/-- The deviation check never reads the engine-owned trigger log. -/
theorem checkDeviation_update_triggers (st : EngineState) (tr : List ScheduleTrigger)
    (pid now : Nat) :
    checkDeviation { st with triggers := tr } pid now = checkDeviation st pid now := rfl

/-- Readiness lookup ignores the trigger log. -/
theorem readinessFor_update_triggers (st : EngineState) (tr : List ScheduleTrigger) (pid : Nat) :
    readinessFor { st with triggers := tr } pid = readinessFor st pid := rfl

/-- Plant lookup ignores the trigger log. -/
theorem plantFor_update_triggers (st : EngineState) (tr : List ScheduleTrigger) (pid : Nat) :
    plantFor { st with triggers := tr } pid = plantFor st pid := rfl

/-- Replacing a readiness row leaves the other tables untouched. -/
theorem setReadiness_triggers (st : EngineState) (pid : Nat) (r : ScheduleReadiness) :
    (setReadiness st pid r).triggers = st.triggers := rfl

/-- Replacing a readiness row leaves the notification log untouched. -/
theorem setReadiness_notifications (st : EngineState) (pid : Nat) (r : ScheduleReadiness) :
    (setReadiness st pid r).notifications = st.notifications := rfl

/-- A found plant has the looked-up id. -/
theorem plantFor_id (st : EngineState) (pid : Nat) (plant : Plant)
    (hp : plantFor st pid = some plant) : plant.id = pid := by
  unfold plantFor at hp
  have := List.find?_some hp
  simpa using this

/-- Lazy creation returns the existing row unchanged when one exists. -/
theorem getOrCreateReadiness_existing (st : EngineState) (plant : Plant) (now : Nat)
    (r0 : ScheduleReadiness) (hr : readinessFor st plant.id = some r0) :
    getOrCreateReadiness st plant now = (st, r0) := by
  unfold getOrCreateReadiness
  rw [hr]

/-- Lazy creation never touches the notification log. -/
theorem getOrCreateReadiness_notifications (st : EngineState) (plant : Plant) (now : Nat) :
    (getOrCreateReadiness st plant now).1.notifications = st.notifications := by
  unfold getOrCreateReadiness
  cases readinessFor st plant.id <;> rfl

/-- Appending an optional trigger never touches the notification log. -/
theorem addTriggerOpt_notifications (st : EngineState) (t : Option ScheduleTrigger) :
    (addTriggerOpt st t).notifications = st.notifications := by
  cases t <;> rfl

/-- Trigger evaluation never touches the notification log. -/
theorem evalTriggers_notifications (st : EngineState) (pid now : Nat) :
    (evalTriggers st pid now).1.notifications = st.notifications := by
  unfold evalTriggers
  cases checkWeatherChange st pid with
  | error e => rfl
  | ok wt =>
    dsimp only
    cases checkDeviation (addTriggerOpt (addTriggerOpt st wt) (checkCurtailment (addTriggerOpt st wt) pid)) pid now with
    | error e => dsimp only; rw [addTriggerOpt_notifications, addTriggerOpt_notifications]
    | ok dt => dsimp only; rw [addTriggerOpt_notifications, addTriggerOpt_notifications, addTriggerOpt_notifications]

/-- When none of the three checks fires, trigger evaluation returns the
state unchanged with an empty active set. -/
theorem evalTriggers_none (st : EngineState) (pid now : Nat)
    (hw : checkWeatherChange st pid = .ok none)
    (hc : checkCurtailment st pid = none)
    (hd : checkDeviation st pid now = .ok none) :
    evalTriggers st pid now = (st, .ok []) := by
  unfold evalTriggers
  rw [hw]
  dsimp only [addTriggerOpt]
  rw [hc]
  dsimp only
  rw [hd]
  rfl

/-- Full characterisation of the status-update phase on success: the new
status follows the decision table, `last_checked` is stamped,
`trigger_reason` is set exactly when the plant resolves to PENDING, a
non-READY outcome leaves deadline and revision untouched, and a non-READY
to READY transition increments the revision, sets the deadline and emits
the ready notification. -/
theorem applyStatusUpdate_spec (hook : Nat → Bool) (st : EngineState) (plant : Plant)
    (r : ScheduleReadiness) (active : List ScheduleTrigger) (now : Nat)
    (st' : EngineState) (r' : ScheduleReadiness)
    (h : applyStatusUpdate hook st plant r active now = (st', .ok r')) :
    r'.status = determineStatus (hook plant.id) (!active.isEmpty) ∧
    r'.last_checked = some now ∧
    (r'.trigger_reason ≠ none ↔ r'.status = "PENDING") ∧
    (r'.status ≠ "READY" → r'.upload_deadline = r.upload_deadline ∧
      r'.revision_number = r.revision_number) ∧
    (r'.status = "READY" → r.status ≠ "READY" →
      (∃ k, r.revision_number = some k ∧ r'.revision_number = some (k + 1)) ∧
      r'.upload_deadline = some (now + UPLOAD_DEADLINE_SECONDS) ∧
      st'.notifications = st.notifications ++
        [readyNotification plant.id plant.name (now + UPLOAD_DEADLINE_SECONDS) now]) := by
  simp only [applyStatusUpdate, determineStatus] at h
  cases hf : hook plant.id <;> cases ha : active.isEmpty <;>
    rw [hf, ha] at h <;>
    simp only [determineStatus, Bool.not_true, Bool.not_false, Bool.false_eq_true,
      Bool.true_eq_false, if_false, if_true, String.reduceEq, ne_eq, false_and, true_and,
      and_false, and_true, not_false_eq_true, reduceIte] at h ⊢
  · -- no files, no active triggers: NO_ACTION
    simp only [Prod.mk.injEq, Except.ok.injEq] at h
    obtain ⟨rfl, rfl⟩ := h
    simp [setReadiness_notifications]
  · -- no files, active triggers: PENDING
    simp only [Prod.mk.injEq, Except.ok.injEq] at h
    obtain ⟨rfl, rfl⟩ := h
    simp [setReadiness_notifications]
  · -- files, no active triggers: READY
    by_cases hrs : r.status = "READY"
    · rw [hrs] at h
      simp only [Prod.mk.injEq, Except.ok.injEq] at h
      obtain ⟨rfl, rfl⟩ := h
      simp [hrs]
    · simp only [hrs, reduceIte] at h
      cases hk : r.revision_number with
      | none => rw [hk] at h; simp at h
      | some k =>
        rw [hk] at h
        simp only [Prod.mk.injEq, Except.ok.injEq] at h
        obtain ⟨rfl, rfl⟩ := h
        refine ⟨rfl, rfl, by simp, by simp, fun _ _ => ⟨⟨k, rfl, rfl⟩, rfl, ?_⟩⟩
        simp [createReadyNotification, setReadiness_notifications]
  · -- files, active triggers: READY
    by_cases hrs : r.status = "READY"
    · rw [hrs] at h
      simp only [Prod.mk.injEq, Except.ok.injEq] at h
      obtain ⟨rfl, rfl⟩ := h
      simp [hrs]
    · simp only [hrs, reduceIte] at h
      cases hk : r.revision_number with
      | none => rw [hk] at h; simp at h
      | some k =>
        rw [hk] at h
        simp only [Prod.mk.injEq, Except.ok.injEq] at h
        obtain ⟨rfl, rfl⟩ := h
        refine ⟨rfl, rfl, by simp, by simp, fun _ _ => ⟨⟨k, rfl, rfl⟩, rfl, ?_⟩⟩
        simp [createReadyNotification, setReadiness_notifications]

/-- A successful per-plant check factors through the three phases: a found
plant, a trigger evaluation and a status update producing the returned
record. -/
theorem checkPlantReadiness_ok (hook : Nat → Bool) (st : EngineState) (pid now : Nat)
    (st' : EngineState) (r : ScheduleReadiness)
    (h : checkPlantReadiness hook st pid now = (st', .ok (some r))) :
    ∃ plant st2 active,
      plantFor st pid = some plant ∧
      evalTriggers (getOrCreateReadiness st plant now).1 pid now = (st2, .ok active) ∧
      applyStatusUpdate hook st2 plant (getOrCreateReadiness st plant now).2 active now =
        (st', .ok r) := by
  cases hp : plantFor st pid with
  | none =>
    simp only [checkPlantReadiness, hp] at h
    simp at h
  | some plant =>
    simp only [checkPlantReadiness, hp] at h
    rcases hev : evalTriggers (getOrCreateReadiness st plant now).1 pid now with ⟨st2, res⟩
    rw [hev] at h
    cases res with
    | error e => simp at h
    | ok active =>
      dsimp only at h
      rcases hap : applyStatusUpdate hook st2 plant (getOrCreateReadiness st plant now).2 active now
        with ⟨st3, res2⟩
      rw [hap] at h
      cases res2 with
      | error e => simp at h
      | ok r2 =>
        dsimp only at h
        simp only [Prod.mk.injEq, Except.ok.injEq, Option.some.injEq] at h
        obtain ⟨rfl, rfl⟩ := h
        exact ⟨plant, st2, active, rfl, hev, hap⟩

/-- C10: after every successfully completed readiness check, the returned
record's `trigger_reason` is non-null exactly when its status is PENDING —
in particular a READY outcome also clears it. -/
theorem trigger_reason_iff_pending (hook : Nat → Bool) (st : EngineState) (pid now : Nat)
    (st' : EngineState) (r : ScheduleReadiness)
    (h : checkPlantReadiness hook st pid now = (st', .ok (some r))) :
    (r.trigger_reason ≠ none ↔ r.status = "PENDING") := by
  obtain ⟨plant, st2, active, hp, hev, hap⟩ := checkPlantReadiness_ok hook st pid now st' r h
  exact (applyStatusUpdate_spec hook st2 plant _ active now st' r hap).2.2.1

/-- C6 amended: a completed re-evaluation that does not resolve to READY
leaves `upload_deadline` exactly as it was — the check never clears a
previously set deadline. -/
theorem reevaluation_preserves_deadline (hook : Nat → Bool) (st : EngineState) (pid now : Nat)
    (plant : Plant) (r0 : ScheduleReadiness) (st' : EngineState) (r : ScheduleReadiness)
    (hp : plantFor st pid = some plant)
    (hr : readinessFor st pid = some r0)
    (h : checkPlantReadiness hook st pid now = (st', .ok (some r)))
    (hs : r.status ≠ "READY") :
    r.upload_deadline = r0.upload_deadline := by
  obtain ⟨plant2, st2, active, hp2, hev, hap⟩ := checkPlantReadiness_ok hook st pid now st' r h
  rw [hp] at hp2
  injection hp2 with hp2
  subst hp2
  have hid := plantFor_id st pid plant hp
  have hget : getOrCreateReadiness st plant now = (st, r0) :=
    getOrCreateReadiness_existing st plant now r0 (by rw [hid]; exact hr)
  rw [hget] at hap
  dsimp only at hap
  exact ((applyStatusUpdate_spec hook st2 plant r0 active now st' r hap).2.2.2.1 hs).1

/-- C7: a completed check that takes an existing record from a non-READY
status into READY increments `revision_number` by exactly one, sets the
upload deadline four hours after the stamped `last_checked` time, and
appends the Schedule-Ready notification. -/
theorem ready_transition (hook : Nat → Bool) (st : EngineState) (pid now : Nat)
    (plant : Plant) (r0 : ScheduleReadiness) (k : Nat) (st' : EngineState) (r : ScheduleReadiness)
    (hp : plantFor st pid = some plant)
    (hr : readinessFor st pid = some r0)
    (h0 : r0.status ≠ "READY")
    (hk : r0.revision_number = some k)
    (h : checkPlantReadiness hook st pid now = (st', .ok (some r)))
    (hs : r.status = "READY") :
    r.revision_number = some (k + 1) ∧
    r.upload_deadline = some (now + UPLOAD_DEADLINE_SECONDS) ∧
    r.last_checked = some now ∧
    st'.notifications = st.notifications ++
      [readyNotification plant.id plant.name (now + UPLOAD_DEADLINE_SECONDS) now] := by
  obtain ⟨plant2, st2, active, hp2, hev, hap⟩ := checkPlantReadiness_ok hook st pid now st' r h
  rw [hp] at hp2
  injection hp2 with hp2
  subst hp2
  have hid := plantFor_id st pid plant hp
  have hget : getOrCreateReadiness st plant now = (st, r0) :=
    getOrCreateReadiness_existing st plant now r0 (by rw [hid]; exact hr)
  rw [hget] at hap hev
  dsimp only at hap hev
  have spec := applyStatusUpdate_spec hook st2 plant r0 active now st' r hap
  obtain ⟨hkpair, hdl, hnotif⟩ := spec.2.2.2.2 hs h0
  obtain ⟨k2, hk2, hrk⟩ := hkpair
  rw [hk] at hk2
  injection hk2 with hk2
  subst hk2
  have hn2 : st2.notifications = st.notifications := by
    have hh := evalTriggers_notifications st pid now
    rw [hev] at hh
    exact hh
  exact ⟨hrk, hdl, spec.2.1, by rw [hnotif, hn2]⟩

/-- Status update with an empty active set and no updated schedule file:
the record resolves to NO_ACTION with `trigger_reason` cleared and nothing
else changed. -/
theorem applyStatusUpdate_no_action (hook : Nat → Bool) (st : EngineState) (plant : Plant)
    (r : ScheduleReadiness) (now : Nat) (hf : hook plant.id = false) :
    applyStatusUpdate hook st plant r [] now =
      (setReadiness st plant.id
         { r with status := "NO_ACTION", last_checked := some now, trigger_reason := none },
       .ok { r with status := "NO_ACTION", last_checked := some now, trigger_reason := none }) := by
  simp only [applyStatusUpdate, determineStatus, hf, List.isEmpty_nil, Bool.not_true,
    Bool.false_eq_true, if_false, String.reduceEq, false_and, and_false, reduceIte]

/-- C1 amended: `triggerManualRevision` records a Manual/MEDIUM trigger
and re-runs the full check, but the check aggregates only the three
freshly evaluated automatic triggers; with no automatic trigger firing and
no updated schedule file the plant resolves to NO_ACTION, not PENDING. -/
theorem manual_trigger_not_aggregated (hook : Nat → Bool) (st : EngineState) (pid now : Nat)
    (plant : Plant) (r0 : ScheduleReadiness) (reason : String)
    (hp : plantFor st pid = some plant)
    (hr : readinessFor st pid = some r0)
    (hw : checkWeatherChange st pid = .ok none)
    (hc : checkCurtailment st pid = none)
    (hd : checkDeviation st pid now = .ok none)
    (hf : hook plant.id = false) :
    (triggerManualRevision hook st pid reason now).2 =
      .ok (some { r0 with
                  status := "NO_ACTION"
                  last_checked := some now
                  trigger_reason := none }) ∧
    manualTrigger pid reason ∈ (triggerManualRevision hook st pid reason now).1.triggers := by
  have hid := plantFor_id st pid plant hp
  have hp1 : plantFor { st with triggers := st.triggers ++ [manualTrigger pid reason] } pid =
      some plant := hp
  have hr1 : readinessFor { st with triggers := st.triggers ++ [manualTrigger pid reason] }
      plant.id = some r0 := by rw [hid]; exact hr
  have hget := getOrCreateReadiness_existing
    { st with triggers := st.triggers ++ [manualTrigger pid reason] } plant now r0 hr1
  have hev : evalTriggers { st with triggers := st.triggers ++ [manualTrigger pid reason] }
      pid now = ({ st with triggers := st.triggers ++ [manualTrigger pid reason] }, .ok []) :=
    evalTriggers_none _ pid now
      (by rw [checkWeatherChange_update_triggers]; exact hw)
      (by rw [checkCurtailment_update_triggers]; exact hc)
      (by rw [checkDeviation_update_triggers]; exact hd)
  have hmain : triggerManualRevision hook st pid reason now =
      (setReadiness { st with triggers := st.triggers ++ [manualTrigger pid reason] } plant.id
         { r0 with status := "NO_ACTION", last_checked := some now, trigger_reason := none },
       .ok (some { r0 with
                   status := "NO_ACTION"
                   last_checked := some now
                   trigger_reason := none })) := by
    simp only [triggerManualRevision, checkPlantReadiness, hp1, hget, hev,
      applyStatusUpdate_no_action hook _ plant r0 now hf]
  rw [hmain]
  refine ⟨rfl, ?_⟩
  rw [setReadiness_triggers]
  simp

/-- C2 amended: a per-plant evaluator failure aborts the sweep at the
failing plant — `check_all_plants` has no exception isolation, so the
error propagates and the remaining plants are not processed, and no
census is returned. -/
theorem sweep_aborts_at_failing_plant (hook : Nat → Bool) (now : Nat) (st : EngineState)
    (c : StatusCounts) (p : Plant) (ps : List Plant) (st1 : EngineState) (e : String)
    (h : checkPlantReadiness hook st p.id now = (st1, .error e)) :
    checkAllGo hook now st c (p :: ps) = (st1, .error e) := by
  simp only [checkAllGo, h]

/-- Witness: the C2 amended theorem at the concrete two-plant fixture. -/
theorem sweep_aborts_at_failing_plant_witness :
    checkAllGo checkScheduleFilesStub 0 abortSweepState
      { ready := 0, pending := 0, noAction := 0 } [plantSolar1, plantWind2] =
      ((checkPlantReadiness checkScheduleFilesStub abortSweepState 1 0).1,
       .error "AttributeError") :=
  sweep_aborts_at_failing_plant checkScheduleFilesStub 0 abortSweepState
    { ready := 0, pending := 0, noAction := 0 } plantSolar1 [plantWind2]
    (checkPlantReadiness checkScheduleFilesStub abortSweepState 1 0).1 "AttributeError" rfl

/-- C3 amended: for a Wind plant with a weather row, a current wind speed
and a forecast `windSpeed` member, the check emits a Weather trigger iff
the forecast wind speed is positive, the current wind speed is positive
and the percent-change magnitude reaches the threshold; severity is HIGH
iff the magnitude reaches 25. -/
theorem weather_wind_characterization (st : EngineState) (pid : Nat) (w : WeatherRow)
    (plant : Plant) (f c : ℚ) (cc : Option ℚ)
    (hw : weatherFor st pid = some w)
    (hfc : w.forecast = .obj (some f) cc)
    (hws : w.windSpeed = some c)
    (hp : plantFor st pid = some plant)
    (ht : plant.type' = "Wind") :
    checkWeatherChange st pid =
      .ok (if f > 0 ∧ c > 0 ∧ |(f - c) / c * 100| ≥ WEATHER_CHANGE_THRESHOLD then
        some { plant_id := pid
               trigger_type := "Weather"
               severity := if |(f - c) / c * 100| ≥ 25 then "HIGH" else "MEDIUM"
               description := "Wind forecast change of " ++ toString ((f - c) / c * 100) ++
                 "% detected"
               threshold_value := some WEATHER_CHANGE_THRESHOLD
               actual_value := some ((f - c) / c * 100)
               acknowledged := false
               processed := false }
      else none) := by
  simp only [checkWeatherChange, hw, hfc, hws, hp, ht, Option.getD_some, String.reduceEq,
    reduceIte]
  by_cases hf0 : f > 0
  · by_cases hc0 : c > 0
    · simp only [hf0, hc0, reduceIte, if_true, true_and]
      by_cases hmag : |(f - c) / c * 100| ≥ WEATHER_CHANGE_THRESHOLD
      · simp [hmag]
      · simp [hmag]
    · simp only [hf0, hc0, reduceIte, if_false, true_and, false_and, and_false]
      rfl
  · simp [hf0]

/-- Witness: the C3 amended theorem at the concrete doubled-wind fixture. -/
theorem weather_wind_characterization_witness :
    checkWeatherChange windDoubledState 2 =
      .ok (if (20 : ℚ) > 0 ∧ (10 : ℚ) > 0 ∧
             |((20 : ℚ) - 10) / 10 * 100| ≥ WEATHER_CHANGE_THRESHOLD then
        some { plant_id := 2
               trigger_type := "Weather"
               severity := if |((20 : ℚ) - 10) / 10 * 100| ≥ 25 then "HIGH" else "MEDIUM"
               description := "Wind forecast change of " ++
                 toString (((20 : ℚ) - 10) / 10 * 100) ++ "% detected"
               threshold_value := some WEATHER_CHANGE_THRESHOLD
               actual_value := some (((20 : ℚ) - 10) / 10 * 100)
               acknowledged := false
               processed := false }
      else none) :=
  weather_wind_characterization windDoubledState 2
    { location := "Plant_2", windSpeed := some 10, cloudCover := none,
      forecast := .obj (some 20) none }
    plantWind2 20 10 none rfl rfl rfl rfl rfl

/-- C8: for a plant whose latest meter payload parses to an object with an
entry for the current block, the deviation check emits a trigger iff the
scheduled value is non-zero and the percent-deviation magnitude reaches
the threshold, with HIGH severity iff the magnitude reaches 20; the
current block index is `hour*4 + minute/15 + 1`. -/
theorem deviation_characterization (st : EngineState) (pid now : Nat) (md : MeterRow)
    (entries : List (String × BlockEntry)) (b : BlockEntry)
    (hm : latestMeter st pid = some md)
    (hb : md.blockData = .obj entries)
    (hne : entries.isEmpty = false)
    (hl : entries.lookup (blockKey now) = some b) :
    (checkDeviation st pid now =
      .ok (if b.scheduled ≠ 0 ∧
             |(b.generation - b.scheduled) / b.scheduled * 100| ≥ DEVIATION_THRESHOLD then
        some { plant_id := pid
               trigger_type := "Deviation"
               severity := if |(b.generation - b.scheduled) / b.scheduled * 100| ≥ 20
                 then "HIGH" else "MEDIUM"
               description := "Meter deviation of " ++
                 toString ((b.generation - b.scheduled) / b.scheduled * 100) ++ "% detected"
               threshold_value := some DEVIATION_THRESHOLD
               actual_value := some ((b.generation - b.scheduled) / b.scheduled * 100)
               acknowledged := false
               processed := false }
      else none)) ∧
    blockKey now = "block_" ++ toString (now / 3600 % 24 * 4 + now % 3600 / 60 / 15 + 1) := by
  constructor
  · simp only [checkDeviation, hm, hb, hne, hl, Bool.false_eq_true, if_false, reduceIte]
    by_cases hs : b.scheduled = 0
    · simp [hs]
    · by_cases hmag : |(b.generation - b.scheduled) / b.scheduled * 100| ≥ DEVIATION_THRESHOLD
      · simp [hs, hmag]
      · simp [hs, hmag]
  · simp only [blockKey]
    have h15 : now % 3600 / 60 / 15 * 15 / 15 = now % 3600 / 60 / 15 := by omega
    rw [h15]

/-- Witness: the C8 theorem at the spec's 120-vs-100 scenario. -/
theorem deviation_characterization_witness :
    (checkDeviation deviationScenarioState 1 0 =
      .ok (if (100 : ℚ) ≠ 0 ∧ |((120 : ℚ) - 100) / 100 * 100| ≥ DEVIATION_THRESHOLD then
        some { plant_id := 1
               trigger_type := "Deviation"
               severity := if |((120 : ℚ) - 100) / 100 * 100| ≥ 20 then "HIGH" else "MEDIUM"
               description := "Meter deviation of " ++
                 toString (((120 : ℚ) - 100) / 100 * 100) ++ "% detected"
               threshold_value := some DEVIATION_THRESHOLD
               actual_value := some (((120 : ℚ) - 100) / 100 * 100)
               acknowledged := false
               processed := false }
      else none)) ∧
    blockKey 0 = "block_" ++ toString (0 / 3600 % 24 * 4 + 0 % 3600 / 60 / 15 + 1) :=
  deviation_characterization deviationScenarioState 1 0
    { plantId := 1, blockData := .obj [(blockKey 0, { generation := 120, scheduled := 100 })] }
    [(blockKey 0, { generation := 120, scheduled := 100 })]
    { generation := 120, scheduled := 100 } rfl rfl rfl rfl

/-- C5 amended: for an existing plant with an existing readiness record,
`continueExistingSchedule` forces the record to NO_ACTION with
`trigger_reason` cleared, and every previously unprocessed trigger of the
plant is re-stored acknowledged and processed, without running the
evaluator.  (With no record it returns nothing and establishes no
status — see the counterexample.) -/
theorem continue_schedule_with_record (st : EngineState) (pid now : Nat)
    (plant : Plant) (r0 : ScheduleReadiness) (t : ScheduleTrigger)
    (hp : plantFor st pid = some plant)
    (hr : readinessFor st pid = some r0)
    (ht : t ∈ st.triggers)
    (htp : t.plant_id = pid)
    (hup : t.processed = false) :
    (continueExistingSchedule st pid now).2 =
      some { r0 with
             status := "NO_ACTION"
             trigger_reason := none
             last_checked := some now } ∧
    { t with acknowledged := true, processed := true } ∈
      (continueExistingSchedule st pid now).1.triggers := by
  simp only [continueExistingSchedule, hp]
  rw [readinessFor_update_triggers, hr]
  dsimp only
  refine ⟨rfl, ?_⟩
  rw [setReadiness_triggers]
  refine List.mem_map.mpr ⟨t, ht, ?_⟩
  simp [htp, hup]

/-- Witness: the C5 amended theorem at the PENDING fixture. -/
theorem continue_schedule_with_record_witness :
    (continueExistingSchedule continueFixtureState 1 4).2 =
      some { pendingRecord1 with
             status := "NO_ACTION"
             trigger_reason := none
             last_checked := some 4 } ∧
    { unprocessedTrigger1 with acknowledged := true, processed := true } ∈
      (continueExistingSchedule continueFixtureState 1 4).1.triggers :=
  continue_schedule_with_record continueFixtureState 1 4 plantSolar1 pendingRecord1
    unprocessedTrigger1 rfl rfl (by decide) rfl rfl

/-- Witness: the C1 amended theorem at the quiet fixture. -/
theorem manual_trigger_not_aggregated_witness :
    (triggerManualRevision checkScheduleFilesStub quietCheckedState 1 "grid event" 3).2 =
      .ok (some { quietNoActionRecord with
                  status := "NO_ACTION"
                  last_checked := some 3
                  trigger_reason := none }) ∧
    manualTrigger 1 "grid event" ∈
      (triggerManualRevision checkScheduleFilesStub quietCheckedState 1 "grid event" 3).1.triggers :=
  manual_trigger_not_aggregated checkScheduleFilesStub quietCheckedState 1 3 plantSolar1
    quietNoActionRecord "grid event" rfl rfl rfl rfl rfl rfl

/-- Witness: the C6 amended theorem — re-evaluating the READY fixture to
NO_ACTION keeps the deadline. -/
theorem reevaluation_preserves_deadline_witness :
    reevaluatedRecord1.upload_deadline = readyRecord1.upload_deadline :=
  reevaluation_preserves_deadline checkScheduleFilesStub readyRecordState 1 7 plantSolar1
    readyRecord1 (checkPlantReadiness checkScheduleFilesStub readyRecordState 1 7).1
    reevaluatedRecord1 rfl rfl rfl (by decide)

/-- Witness: the C7 theorem at the quiet fixture with an updated schedule
file present. -/
theorem ready_transition_witness :
    readyTransitionRecord.revision_number = some (0 + 1) ∧
    readyTransitionRecord.upload_deadline = some (5 + UPLOAD_DEADLINE_SECONDS) ∧
    readyTransitionRecord.last_checked = some 5 ∧
    (checkPlantReadiness hookAlwaysTrue quietCheckedState 1 5).1.notifications =
      quietCheckedState.notifications ++
        [readyNotification plantSolar1.id plantSolar1.name (5 + UPLOAD_DEADLINE_SECONDS) 5] :=
  ready_transition hookAlwaysTrue quietCheckedState 1 5 plantSolar1 quietNoActionRecord 0
    (checkPlantReadiness hookAlwaysTrue quietCheckedState 1 5).1 readyTransitionRecord
    rfl rfl (by decide) rfl rfl rfl

/-- Witness: the C10 theorem at the quiet fixture. -/
theorem trigger_reason_iff_pending_witness :
    (quietNoActionRecord.trigger_reason ≠ none ↔ quietNoActionRecord.status = "PENDING") :=
  trigger_reason_iff_pending checkScheduleFilesStub quietState 1 0
    (checkPlantReadiness checkScheduleFilesStub quietState 1 0).1 quietNoActionRecord rfl

/-- The invariant is monotone in the clock. -/
theorem notifInv_mono (l : List ScheduleNotification) (t t' : Nat) (h : t ≤ t')
    (hi : NotifInv l t) : NotifInv l t' :=
  ⟨hi.1, fun n hn hTA => le_trans (hi.2 n hn hTA) h⟩

/-- The deduplicating dispatcher preserves the invariant: it creates a new
Trigger-Alert notification only when every existing one for the plant is
at least one hour old. -/
theorem createNotification_inv (st : EngineState) (pid : Nat) (pname : String)
    (trig : ScheduleTrigger) (now : Nat) (hi : NotifInv st.notifications now) :
    NotifInv (createNotification st pid pname trig now).1.notifications now := by
  unfold createNotification
  cases hfind : st.notifications.find? (fun n =>
      n.plant_id == pid && n.notification_type == "Trigger Alert" &&
        decide ((n.created_at : Int) > (now : Int) - 3600)) with
  | some existing => exact hi
  | none =>
    dsimp only
    constructor
    · rw [List.pairwise_append]
      refine ⟨hi.1, List.pairwise_singleton _ _, ?_⟩
      intro a ha b hb
      rw [List.mem_singleton] at hb
      subst hb
      intro hplant hTAa hTAb
      have hfa := List.find?_eq_none.mp hfind a ha
      simp only [Bool.and_eq_true, beq_iff_eq, decide_eq_true_eq, not_and] at hfa
      have hlate := hfa ⟨hplant, hTAa⟩
      have hbound := hi.2 a ha hTAa
      dsimp only
      omega
    · intro n hn hTA
      rcases List.mem_append.mp hn with h1 | h1
      · exact hi.2 n h1 hTA
      · rw [List.mem_singleton] at h1
        subst h1
        exact Nat.le_refl now

/-- The ready-notification dispatcher preserves the invariant: the
appended notification is not a Trigger Alert. -/
theorem createReadyNotification_inv (st : EngineState) (pid : Nat) (pname : String)
    (deadline now : Nat) (hi : NotifInv st.notifications now) :
    NotifInv (createReadyNotification st pid pname deadline now).notifications now := by
  constructor
  · dsimp only [createReadyNotification]
    rw [List.pairwise_append]
    refine ⟨hi.1, List.pairwise_singleton _ _, ?_⟩
    intro a ha b hb
    rw [List.mem_singleton] at hb
    subst hb
    intro hplant hTAa hTAb
    exact absurd hTAb (by simp [readyNotification])
  · intro n hn hTA
    dsimp only [createReadyNotification] at hn
    rcases List.mem_append.mp hn with h1 | h1
    · exact hi.2 n h1 hTA
    · rw [List.mem_singleton] at h1
      subst h1
      exact absurd hTA (by simp [readyNotification])

/-- Dispatching a batch of triggers preserves the invariant. -/
theorem foldl_createNotification_inv (pid : Nat) (pname : String) (now : Nat) :
    ∀ (ts : List ScheduleTrigger) (st : EngineState), NotifInv st.notifications now →
      NotifInv ((ts.foldl (fun s t => (createNotification s pid pname t now).1)
        st).notifications) now
  | [], _, hi => hi
  | t :: ts, st, hi => foldl_createNotification_inv pid pname now ts _
      (createNotification_inv st pid pname t now hi)

/-- The status-update phase preserves the invariant, on both its success
and failure paths. -/
theorem applyStatusUpdate_inv (hook : Nat → Bool) (st : EngineState) (plant : Plant)
    (r : ScheduleReadiness) (active : List ScheduleTrigger) (now : Nat)
    (hi : NotifInv st.notifications now) :
    NotifInv (applyStatusUpdate hook st plant r active now).1.notifications now := by
  unfold applyStatusUpdate
  dsimp only
  split
  · split
    · dsimp only
      split
      · exact foldl_createNotification_inv plant.id plant.name now active st hi
      · exact hi
    · dsimp only
      refine createReadyNotification_inv _ _ _ _ _ ?_
      rw [setReadiness_notifications]
      split
      · exact foldl_createNotification_inv plant.id plant.name now active st hi
      · exact hi
  · dsimp only
    rw [setReadiness_notifications]
    split
    · exact foldl_createNotification_inv plant.id plant.name now active st hi
    · exact hi

/-- The per-plant check preserves the invariant. -/
theorem checkPlantReadiness_inv (hook : Nat → Bool) (st : EngineState) (pid now : Nat)
    (hi : NotifInv st.notifications now) :
    NotifInv (checkPlantReadiness hook st pid now).1.notifications now := by
  unfold checkPlantReadiness
  cases hp : plantFor st pid with
  | none => exact hi
  | some plant =>
    dsimp only
    rcases hev : evalTriggers (getOrCreateReadiness st plant now).1 pid now with ⟨st2, res⟩
    have hst2 : st2.notifications = st.notifications := by
      have h1 := evalTriggers_notifications (getOrCreateReadiness st plant now).1 pid now
      rw [hev] at h1
      rw [getOrCreateReadiness_notifications] at h1
      exact h1
    have hi2 : NotifInv st2.notifications now := by rw [hst2]; exact hi
    cases res with
    | error e => exact hi2
    | ok active =>
      dsimp only
      rcases hap : applyStatusUpdate hook st2 plant (getOrCreateReadiness st plant now).2
        active now with ⟨st3, res2⟩
      have h3 := applyStatusUpdate_inv hook st2 plant (getOrCreateReadiness st plant now).2
        active now hi2
      rw [hap] at h3
      cases res2 <;> exact h3

/-- The sweep loop preserves the invariant. -/
theorem checkAllGo_inv (hook : Nat → Bool) (now : Nat) :
    ∀ (ps : List Plant) (st : EngineState) (c : StatusCounts), NotifInv st.notifications now →
      NotifInv (checkAllGo hook now st c ps).1.notifications now
  | [], _, _, hi => hi
  | p :: ps, st, c, hi => by
    unfold checkAllGo
    rcases hcp : checkPlantReadiness hook st p.id now with ⟨st1, res⟩
    have h1 := checkPlantReadiness_inv hook st p.id now hi
    rw [hcp] at h1
    cases res with
    | error e => exact h1
    | ok x =>
      dsimp only
      cases hrd : readinessFor st1 p.id with
      | none => exact checkAllGo_inv hook now ps st1 c h1
      | some r =>
        dsimp only
        cases hbc : bumpCount c r.status with
        | error e => exact h1
        | ok c1 => exact checkAllGo_inv hook now ps st1 c1 h1

/-- The manual-revision operation preserves the invariant. -/
theorem triggerManualRevision_inv (hook : Nat → Bool) (st : EngineState) (pid : Nat)
    (reason : String) (now : Nat) (hi : NotifInv st.notifications now) :
    NotifInv (triggerManualRevision hook st pid reason now).1.notifications now :=
  checkPlantReadiness_inv hook { st with triggers := st.triggers ++ [manualTrigger pid reason] }
    pid now hi

/-- The continue-existing-schedule operation preserves the invariant. -/
theorem continueExistingSchedule_inv (st : EngineState) (pid now : Nat)
    (hi : NotifInv st.notifications now) :
    NotifInv (continueExistingSchedule st pid now).1.notifications now := by
  unfold continueExistingSchedule
  split
  · exact hi
  · dsimp only
    split
    · exact hi
    · dsimp only
      rw [setReadiness_notifications]
      exact hi

/-- The manual ready-marking operation preserves the invariant, also on
its raising path. -/
theorem markScheduleReady_inv (st : EngineState) (pid : Nat) (d : Option Nat) (now : Nat)
    (hi : NotifInv st.notifications now) :
    NotifInv (markScheduleReady st pid d now).1.notifications now := by
  unfold markScheduleReady
  split
  · exact hi
  · dsimp only
    split
    · exact hi
    · dsimp only
      refine createReadyNotification_inv _ _ _ _ _ ?_
      rw [setReadiness_notifications]
      exact hi

/-- Every engine operation preserves the invariant at its own time. -/
theorem runOp_inv (hook : Nat → Bool) (st : EngineState) (op : Op)
    (hi : NotifInv st.notifications op.time) :
    NotifInv (runOp hook st op).notifications op.time := by
  cases op with
  | checkAll now => exact checkAllGo_inv hook now st.plants st _ hi
  | checkPlant pid now => exact checkPlantReadiness_inv hook st pid now hi
  | manual pid reason now => exact triggerManualRevision_inv hook st pid reason now hi
  | contSchedule pid now => exact continueExistingSchedule_inv st pid now hi
  | markReady pid d now => exact markScheduleReady_inv st pid d now hi

/-- Running a time-monotone operation sequence from an invariant state
keeps the invariant at some final clock. -/
theorem runTrace_inv (hook : Nat → Bool) :
    ∀ (ops : List Op) (st : EngineState) (t : Nat), NotifInv st.notifications t →
      List.Chain (fun a b => a ≤ b) t (ops.map Op.time) →
      ∃ t', NotifInv (runTrace hook st ops).notifications t'
  | [], _, t, hi, _ => ⟨t, hi⟩
  | op :: ops, st, t, hi, hchain => by
    rw [List.map_cons, List.chain_cons] at hchain
    obtain ⟨hle, hchain2⟩ := hchain
    have hi1 := notifInv_mono _ _ _ hle hi
    have hi2 := runOp_inv hook st op hi1
    exact runTrace_inv hook ops (runOp hook st op) op.time hi2 hchain2

/-- C9: starting from an empty notification log, along any time-monotone
sequence of engine operations the notification log stays pairwise
separated — any two Trigger-Alert notifications for the same plant are at
least one hour apart, i.e. at most one Trigger-Alert notification is
created per plant within any rolling 1-hour window; the dispatcher
returns the existing notification instead of creating a new one. -/
theorem trigger_alert_rate_limited (hook : Nat → Bool) (st0 : EngineState) (ops : List Op)
    (h0 : st0.notifications = [])
    (hmono : List.Chain (fun a b => a ≤ b) 0 (ops.map Op.time)) :
    (runTrace hook st0 ops).notifications.Pairwise taSep := by
  have hi : NotifInv st0.notifications 0 := by
    rw [h0]
    exact ⟨List.Pairwise.nil, by simp⟩
  obtain ⟨t2, hinv⟩ := runTrace_inv hook ops st0 0 hi hmono
  exact hinv.1

/-- Witness: the C9 theorem on the curtailed fixture checked twice ten
seconds apart (the second Trigger-Alert is deduplicated). -/
theorem trigger_alert_rate_limited_witness :
    (runTrace checkScheduleFilesStub curtailedState rateLimitOps).notifications.Pairwise taSep :=
  trigger_alert_rate_limited checkScheduleFilesStub curtailedState rateLimitOps rfl
    (by simp [rateLimitOps, Op.time, List.chain_cons])
